import Mathlib

/-!
Verification of the TRACE transactional-risk pipeline
(`src/starter/src/risk_analyst_agent.py` and
`src/starter/src/compliance_officer_agent.py`) against its
natural-language specification.

The two agent modules are shallowly embedded below.  Python strings are
modelled as Lean `String` or `List Char`; the Python string operations the
agents use (`split` on a separator, `split()` on whitespace, `strip`,
`lower`, `in`) are re-implemented as structural Lean functions so that all
theorems can be checked by kernel evaluation.  Python exceptions are
modelled by `PyExn` (a kind such as "ValueError" or "TypeError", plus the
message that `str(e)` would yield).  The external collaborators that the
repository imports but does not define (the OpenAI client, `json.loads`,
and the pydantic output constructors of the missing `foundation_sar`
module) are abstract parameters of the pipelines, gathered in environment
records; the `foundation_sar` value types and the audit logger are
modelled from the specification since their source is not in the
repository.
-/

/-- Whitespace test used to model the Python `str.split()` and
`str.strip()` behaviour.  Python treats a slightly larger set of unicode
code points as whitespace; the agents only ever meet ASCII whitespace, for
which the two notions agree. -/
def pyWs (c : Char) : Bool :=
  c.isWhitespace

/-- Model of Python `str.split()` (no separator): splits on runs of
whitespace and never yields empty words.  The accumulator holds the
current word reversed. -/
def pyWordsAux : List Char → List Char → List (List Char)
  | [], acc => if acc = [] then [] else [acc.reverse]
  | c :: rest, acc =>
    if pyWs c then
      if acc = [] then pyWordsAux rest [] else acc.reverse :: pyWordsAux rest []
    else
      pyWordsAux rest (c :: acc)

/-- The list of whitespace-separated words of a string, as Python
`s.split()` returns it. -/
def pyWords (s : String) : List (List Char) :=
  pyWordsAux s.data []

/-- The word count the compliance validator computes:
`len(narrative.split())`. -/
def pyWordCount (s : String) : Nat :=
  (pyWords s).length

/-- Model of Python `str.lower()` (ASCII case folding; the required terms
checked by the validator are all ASCII). -/
def pyLower (s : String) : String :=
  String.mk (s.data.map Char.toLower)

/-- Decidable prefix test on character lists (Python substring matching is
built on it). -/
def isPre : List Char → List Char → Bool
  | [], _ => true
  | _ :: _, [] => false
  | p :: ps, c :: cs => if p = c then isPre ps cs else false

/-- Index of the first occurrence of `pat` in `s`, if any.  Models the
scan that underlies Python `pat in s`, `s.split(pat)` and `s.find(pat)`.
For the empty pattern it returns `some 0`, as Python containment does. -/
def firstOccIdx (pat : List Char) : List Char → Option Nat
  | [] => if pat = [] then some 0 else none
  | c :: rest =>
    if isPre pat (c :: rest) then some 0
    else (firstOccIdx pat rest).map (· + 1)

/-- Model of Python `pat in s` (substring containment). -/
def pyContains (s pat : String) : Bool :=
  (firstOccIdx pat.data s.data).isSome

/-- Fuel-driven worker for `pySplit`; the fuel is an upper bound on the
length of the list, which makes the definition structural and hence
kernel-evaluable. -/
def pySplitGo (pat : List Char) : Nat → List Char → List (List Char)
  | _, [] => [[]]
  | 0, s => [s]
  | fuel + 1, c :: rest =>
    if isPre pat (c :: rest) ∧ pat ≠ [] then
      [] :: pySplitGo pat fuel ((c :: rest).drop pat.length)
    else
      match pySplitGo pat fuel rest with
      | [] => [[c]]
      | p :: ps => (c :: p) :: ps

/-- Model of Python `s.split(pat)` for a non-empty separator `pat`:
left-to-right scan consuming non-overlapping occurrences; pieces never
contain an occurrence of the separator. -/
def pySplit (pat s : List Char) : List (List Char) :=
  pySplitGo pat s.length s

/-- Model of Python `s.strip()`: drop whitespace from both ends. -/
def pyStripChars (l : List Char) : List Char :=
  ((((l.dropWhile pyWs).reverse).dropWhile pyWs)).reverse

/-- `s.strip()` at the `String` level. -/
def pyStrip (s : String) : String :=
  String.mk (pyStripChars s.data)

/-- `", ".join(xs)`-style joining (Python `sep.join`). -/
def pyJoin (sep : String) (xs : List String) : String :=
  match xs with
  | [] => ""
  | x :: rest => rest.foldl (fun acc y => acc ++ sep ++ y) x

/-- The backtick character, written by code point to keep it out of
character-literal position. -/
def btick : Char :=
  Char.ofNat 96

/-- Fuel-driven three-digit grouping of a reversed digit list; used by
the thousands-separator rendering of `format(x, ",.2f")`.  The fuel bounds
the length of the list, keeping the recursion structural. -/
def group3Go : Nat → List Char → List Char
  | 0, l => l
  | fuel + 1, a :: b :: c :: rest@(_ :: _) => a :: b :: c :: ',' :: group3Go fuel rest
  | _, l => l

/-- Three-digit grouping of a reversed digit list. -/
def group3 (l : List Char) : List Char :=
  group3Go l.length l

/-- Decimal digits of `n` with commas every three digits from the right,
as Python `f"{n:,}"` renders a non-negative integer. -/
def natCommas (n : Nat) : String :=
  String.mk ((group3 (toString n).data.reverse).reverse)

/-- Two-digit zero-padded rendering of `k < 100` (the cents part of a
fixed-point amount). -/
def pad2 (k : Nat) : String :=
  if k < 10 then "0" ++ toString k else toString k

/-- Monetary amounts are modelled as an exact number of cents.  The
repository never defines the numeric type (it lives in the missing
`foundation_sar` module); the spec calls the values signed decimals and
all renderings use two decimal places, so integer cents is a lossless
model. -/
abbrev Money : Type :=
  Int

/-- Model of Python `f"{x:,.2f}"` on a cents amount: sign, integer part
with thousands separators, dot, two-digit cents. -/
def fmtMoney (m : Money) : String :=
  let n := (m : Int).natAbs
  (if (m : Int) < 0 then "-" else "") ++ natCommas (n / 100) ++ "." ++ pad2 (n % 100)

/-- Model of the plain `f"{x}"` rendering of a two-decimal amount (`str`
of a two-place decimal): no thousands separators. -/
def strMoney (m : Money) : String :=
  let n := (m : Int).natAbs
  (if (m : Int) < 0 then "-" else "") ++ toString (n / 100) ++ "." ++ pad2 (n % 100)

/-- Model of Python `f"{x:.1f}"` on a confidence held in tenths of a
unit. -/
def fmtTenths (n : Nat) : String :=
  toString (n / 10) ++ "." ++ toString (n % 10)


/-- Model of a raised Python exception: the class name and the message
that `str(e)` yields (which may be empty, as for `Exception()`). -/
structure PyExn where
  kind : String
  msg : String
  deriving DecidableEq

/-- Modelled from the spec: `CustomerData` of the missing `foundation_sar`
module (section 3 of the spec); the agents read `customer_id`, `name`,
`date_of_birth`, `risk_rating` and — under the attribute name
`customer_since` that the risk analyst prompt uses — the onboarding
date. -/
structure CustomerData where
  customer_id : String
  name : String
  date_of_birth : String
  risk_rating : String
  customer_since : String
  deriving DecidableEq

/-- Modelled from the spec: `AccountData` of the missing `foundation_sar`
module. -/
structure AccountData where
  account_id : String
  account_type : String
  current_balance : Money
  status : String
  deriving DecidableEq

/-- Modelled from the spec: `TransactionData` of the missing
`foundation_sar` module. -/
structure TransactionData where
  transaction_date : String
  amount : Money
  method : String
  transaction_type : String
  description : String
  deriving DecidableEq

/-- Modelled from the spec: `CaseData` of the missing `foundation_sar`
module — one customer plus ordered account and transaction sequences. -/
structure CaseData where
  case_id : String
  customer : CustomerData
  accounts : List AccountData
  transactions : List TransactionData
  deriving DecidableEq

/-- Modelled from the spec: `RiskAnalystOutput` of the missing
`foundation_sar` module.  The confidence scale is left open by the spec
(0-1 versus 0-100); it is held here in tenths of a unit so that the
`.1f` rendering is exact.  No claim depends on the scale. -/
structure RiskAnalystOutput where
  classification : String
  confidence : Nat
  risk_level : String
  suspicious_indicators : List String
  reasoning : String
  deriving DecidableEq

/-- Modelled from the spec: `ComplianceOfficerOutput` of the missing
`foundation_sar` module. -/
structure ComplianceOfficerOutput where
  case_id : String
  narrative : String
  word_count : Nat
  regulatory_citations : List String
  deriving DecidableEq

/-- Modelled from the spec: one audit record as produced by a single
`ExplainabilityLogger.log_agent_action` call (spec sections 3 and 4.4).
`input_data` and `output_data` are the structured snapshots the agents
pass; `output_data = none` models the empty snapshot `{}` passed on
failure; `error_message = none` models the argument being omitted.
Timing is not modelled, so `execution_time_ms` is recorded as zero. -/
structure AuditLogEntry (ι : Type) (ω : Type) where
  agent_type : String
  action : String
  case_id : String
  input_data : ι
  output_data : Option ω
  reasoning : String
  execution_time_ms : Nat
  success : Bool
  error_message : Option String

/-- Dynamic Python value, as far as the agents pass values between the
mis-called formatter methods: strings, account lists and transaction
lists. -/
inductive PyVal where
  | str (s : String)
  | accList (l : List AccountData)
  | txList (l : List TransactionData)

/-- A Python callable: its name, its positional parameter list and its
behaviour once the arguments are bound. -/
structure PyCallable where
  name : String
  params : List String
  impl : List PyVal → Except PyExn PyVal

/-- Python call semantics for positional arguments: binding fails with a
`TypeError` when the argument count does not match the parameter count —
exactly what happens when an instance method that expects `self` plus one
argument is invoked through the class with a single argument. -/
def pyCall (f : PyCallable) (args : List PyVal) : Except PyExn PyVal :=
  if args.length = f.params.length then f.impl args
  else
    .error ⟨"TypeError",
      f.name ++ "() missing " ++ toString (f.params.length - args.length) ++
        " required positional argument"⟩

/-- A call that is expected to produce a string (an f-string interpolation
site). -/
def pyCallStr (f : PyCallable) (args : List PyVal) : Except PyExn String :=
  match pyCall f args with
  | .ok (PyVal.str s) => .ok s
  | .ok _ => .error ⟨"TypeError", "expected a string result"⟩
  | .error e => .error e

/-- The fenced-block opener tagged as JSON. -/
def jsonTagStr : String :=
  "```json"

/-- The fenced-block opener tagged as JSON, as characters. -/
def jsonTag : List Char :=
  jsonTagStr.data

/-- A plain fence marker. -/
def fenceStr : String :=
  "```"

/-- A plain fence marker, as characters. -/
def fence : List Char :=
  fenceStr.data

/-- Outcome of `_validate_narrative_compliance`: the Python dict
`{"compliant": True}` or `{"compliant": False, "reason": ...}`. -/
inductive ComplianceCheck where
  | ok
  | fail (reason : String)
  deriving DecidableEq

/-- The fixed required-term list of the compliance validator, in source
order. -/
def required_terms : List String :=
  ["suspicious", "transaction", "customer", "account"]

/-- The required terms that are absent from the lower-cased narrative
(the list comprehension `[term for term in required_terms if term not in
narrative.lower()]`). -/
def missingTerms (narrative : String) : List String :=
  required_terms.filter (fun t => ! pyContains (pyLower narrative) t)

namespace RiskAnalystAgent

/-- The system prompt of the risk analyst.  Its text is a fixed literal
passed opaquely to the external chat call; no claim depends on it, so the
content is elided. -/
def system_prompt : String :=
  "RiskAnalyst system prompt"

/-- One account line of the risk analyst prompt:
`f"\n- {id} ({type}, Balance: {balance}, Status: {status})"`. -/
def accountLine (a : AccountData) : String :=
  "\n- " ++ a.account_id ++ " (" ++ a.account_type ++ ", Balance: " ++
    strMoney a.current_balance ++ ", Status: " ++ a.status ++ ")"

/-- One transaction line of the risk analyst prompt:
`f"\n- {date}: {amount} via {method} ({type})"`. -/
def txLine (t : TransactionData) : String :=
  "\n- " ++ t.transaction_date ++ ": " ++ strMoney t.amount ++ " via " ++
    t.method ++ " (" ++ t.transaction_type ++ ")"

/-- The customer-profile header of the risk analyst prompt, up to and
including the `Accounts (n):` line. -/
def customerHeader (c : CaseData) : String :=
  "Customer Profile:\n        - ID: " ++ c.customer.customer_id ++
    "\n        - Name: " ++ c.customer.name ++
    "\n        - DOB: " ++ c.customer.date_of_birth ++
    "\n        - Risk Rating: " ++ c.customer.risk_rating ++
    "\n        - Onboarded: " ++ c.customer.customer_since ++
    "\n\n        Accounts (" ++ toString c.accounts.length ++ "):"

/-- The transactions header of the risk analyst prompt. -/
def txHeader (c : CaseData) : String :=
  "\n\nTransactions (" ++ toString c.transactions.length ++ " shown below, max 10):"

/-- `sum(a.current_balance for a in accounts)`. -/
def total_balance (c : CaseData) : Money :=
  c.accounts.foldl (fun s a => s + a.current_balance) 0

/-- `sum(t.amount for t in transactions)`. -/
def total_txn_volume (c : CaseData) : Money :=
  c.transactions.foldl (fun s t => s + t.amount) 0

/-- `total_txn_volume / len(transactions) if transactions else 0`.  The
float average is modelled as integer division on cents; the value is
presentation-only (spec 4.1). -/
def avg_txn_amount (c : CaseData) : Money :=
  if c.transactions.length = 0 then 0
  else total_txn_volume c / (c.transactions.length : Int)

/-- The financial-summary block of the risk analyst prompt. -/
def statsBlock (c : CaseData) : String :=
  "\n    \nFinancial Summary:\n    - Total Account Balance: " ++
    fmtMoney (total_balance c) ++
    "\n    - Total Transaction Volume: " ++ fmtMoney (total_txn_volume c) ++
    "\n    - Average Transaction Amount: " ++ fmtMoney (avg_txn_amount c) ++
    "\n    "

/-- `RiskAnalystAgent._format_case_for_prompt`: the customer header, a
loop appending one line per account, the transaction header, a loop
appending one line per transaction of `transactions[:10]`, and the
financial summary. -/
def _format_case_for_prompt (c : CaseData) : String :=
  let summary := c.accounts.foldl (fun s a => s ++ accountLine a) (customerHeader c)
  let txn_summary := (c.transactions.take 10).foldl (fun s t => s ++ txLine t) (txHeader c)
  summary ++ txn_summary ++ statsBlock c

/-- One line of `_format_accounts`:
`f"- {id}: {type}, Balance: ${balance:,.2f}, Status: {status}"`. -/
def acLine (a : AccountData) : String :=
  "- " ++ a.account_id ++ ": " ++ a.account_type ++ ", Balance: $" ++
    fmtMoney a.current_balance ++ ", Status: " ++ a.status

/-- Body of `RiskAnalystAgent._format_accounts` once `self` and
`accounts` are bound. -/
def _format_accounts (accounts : List AccountData) : String :=
  if accounts = [] then "No accounts available."
  else
    "Accounts (" ++ toString accounts.length ++ "):\n" ++
      pyJoin ("\n") (accounts.map acLine)

/-- The enumerated transaction lines of `_format_transactions`
(`enumerate` starting at 0, rendered as `i+1`). -/
def txEnumLines (i : Nat) : List TransactionData → List String
  | [] => []
  | t :: ts =>
    (toString (i + 1) ++ ". " ++ t.transaction_date ++ ": " ++
        t.transaction_type ++ " $" ++ fmtMoney t.amount ++ " ‚Äî " ++
        t.description) :: txEnumLines (i + 1) ts

/-- Body of `RiskAnalystAgent._format_transactions` once `self` and
`transactions` are bound: renders `transactions[:10]`. -/
def _format_transactions (transactions : List TransactionData) : String :=
  if transactions = [] then "No transactions available."
  else
    "Transactions (" ++ toString transactions.length ++ " shown below, max 10):\n" ++
      pyJoin ("\n") (txEnumLines 0 (transactions.take 10))

/-- `RiskAnalystAgent._format_accounts` as the Python callable the
compliance agent mis-invokes: an instance method with parameters
`(self, accounts)`. -/
def formatAccountsCallable : PyCallable where
  name := "_format_accounts"
  params := ["self", "accounts"]
  impl := fun args =>
    match args with
    | [_, PyVal.accList l] => .ok (PyVal.str (_format_accounts l))
    | _ => .error ⟨"TypeError", "unsupported argument"⟩

/-- `RiskAnalystAgent._format_transactions` as the Python callable the
compliance agent mis-invokes: an instance method with parameters
`(self, transactions)`. -/
def formatTransactionsCallable : PyCallable where
  name := "_format_transactions"
  params := ["self", "transactions"]
  impl := fun args =>
    match args with
    | [_, PyVal.txList l] => .ok (PyVal.str (_format_transactions l))
    | _ => .error ⟨"TypeError", "unsupported argument"⟩

/-- The fence-selection step of
`RiskAnalystAgent._extract_json_from_response`: if the tagged opener
occurs, `split("```json")[1].split("```")[0]`; else if a fence occurs,
`split("```")[1]`; else the whole text. -/
def fenceCandidate (s : List Char) : List Char :=
  if (firstOccIdx jsonTag s).isSome then
    ((pySplit fence ((pySplit jsonTag s).getD 1 []))).getD 0 []
  else if (firstOccIdx fence s).isSome then
    (pySplit fence s).getD 1 []
  else s

/-- `RiskAnalystAgent._extract_json_from_response`: select the candidate,
strip it, raise `ValueError` when empty, return the stripped text.  The
internal `ValueError("No JSON content found")` is caught by the same method within
its own `except` clause and re-raised as
`ValueError(f"No JSON content found: {e}")`. -/
def _extract_json_from_response (s : String) : Except PyExn String :=
  let content := fenceCandidate s.data
  if pyStripChars content = [] then
    .error ⟨"ValueError", "No JSON content found: No JSON content found"⟩
  else .ok (String.mk (pyStripChars content))

/-- External collaborators of `analyze_case`, abstracted: the OpenAI
chat call (system prompt and user prompt to response text, or a raised
exception), `json.loads` (to some parsed-payload type `J`), and the
pydantic constructor `RiskAnalystOutput(**parsed)`. -/
structure RaEnv (J : Type) where
  chat : String → String → Except PyExn String
  loads : String → Except PyExn J
  mkOutput : J → Except PyExn RiskAnalystOutput

/-- The `try` body of `RiskAnalystAgent.analyze_case`: build the prompt,
call the model, extract the payload text, `json.loads` it, construct the
output (the parsed payload is kept because the success log snapshots
it). -/
def analyze_body {J : Type} (c : CaseData) (env : RaEnv J) :
    Except PyExn (RiskAnalystOutput × J) := do
  let content ← env.chat system_prompt (_format_case_for_prompt c)
  let extracted ← _extract_json_from_response content
  let parsed ← env.loads extracted
  let output ← env.mkOutput parsed
  pure (output, parsed)

/-- `RiskAnalystAgent.analyze_case`: run the body and log exactly one
audit entry on either path (success entry without `error_message`,
failure entry with `error_message=str(e)`), raising
`ValueError("No JSON content found")` on failure whatever the caught
exception was.  The failure entry carries the literal from the source
`agent_type="RiskAnalystS"`. -/
def analyze_case {J : Type} (c : CaseData) (env : RaEnv J) :
    Except PyExn RiskAnalystOutput × List (AuditLogEntry String J) :=
  let user_prompt := _format_case_for_prompt c
  match analyze_body c env with
  | .ok (output, parsed) =>
    (.ok output,
      [{ agent_type := "RiskAnalyst", action := "analyze_case",
         case_id := c.case_id, input_data := user_prompt,
         output_data := some parsed,
         reasoning := "Chain-of-Thought classification",
         execution_time_ms := 0, success := true, error_message := none }])
  | .error e =>
    (.error ⟨"ValueError", "No JSON content found"⟩,
      [{ agent_type := "RiskAnalystS", action := "analyze_case",
         case_id := c.case_id, input_data := user_prompt,
         output_data := none,
         reasoning := "Failed to classify case",
         execution_time_ms := 0, success := false,
         error_message := some e.msg }])

end RiskAnalystAgent

namespace ComplianceOfficerAgent

/-- The system prompt of the compliance officer.  Its text is a fixed
literal passed opaquely to the external chat call; no claim depends on
it, so the content is elided. -/
def system_prompt : String :=
  "ComplianceOfficer system prompt"

/-- `ComplianceOfficerAgent._format_risk_analysis_for_prompt`. -/
def _format_risk_analysis_for_prompt (ra : RiskAnalystOutput) : String :=
  "Classification: " ++ ra.classification ++ " (Confidence: " ++
    fmtTenths ra.confidence ++ "%)\n" ++
    "Risk Level: " ++ ra.risk_level ++ "\n" ++
    "Suspicious Indicators:\n" ++
    pyJoin ("\n") (ra.suspicious_indicators.map (fun ind => "- " ++ ind)) ++
    "\n" ++ "Analyst Reasoning: " ++ ra.reasoning

/-- The prompt f-string of `generate_compliance_narrative`.  Its two
formatter interpolations invoke `RiskAnalystAgent._format_accounts` and
`RiskAnalystAgent._format_transactions` through the class with a single
argument each, so binding fails with a `TypeError` at the first one and
the f-string never completes. -/
def prompt_build (c : CaseData) (ra : RiskAnalystOutput) : Except PyExn String := do
  let accounts_str ← pyCallStr RiskAnalystAgent.formatAccountsCallable [PyVal.accList c.accounts]
  let transactions_str ← pyCallStr RiskAnalystAgent.formatTransactionsCallable [PyVal.txList c.transactions]
  pure ("Case ID: " ++ c.case_id ++
    "\n            Customer: " ++ c.customer.name ++ " (" ++ c.customer.customer_id ++ ")" ++
    "\n            Accounts: " ++ accounts_str ++
    "\n            Transactions: " ++ transactions_str ++
    "\n            Risk Findings:\n            " ++
    _format_risk_analysis_for_prompt ra)

/-- The fence-selection step of
`ComplianceOfficerAgent._extract_json_from_response`: like that of the risk
analyst, but the plain-fence branch is
`split("```")[1].split("```")[0]`. -/
def fenceCandidate (s : List Char) : List Char :=
  if (firstOccIdx jsonTag s).isSome then
    ((pySplit fence ((pySplit jsonTag s).getD 1 []))).getD 0 []
  else if (firstOccIdx fence s).isSome then
    ((pySplit fence ((pySplit fence s).getD 1 []))).getD 0 []
  else s

/-- `ComplianceOfficerAgent._extract_json_from_response`: select the
candidate, strip it, raise on empty, then `json.loads` the stripped
text.  Both the internal `ValueError` and any `loads` failure are caught
and re-raised as `ValueError(f"Failed to parse Risk Analyst JSON output:
{e}")`. -/
def _extract_json_from_response {J : Type} (loads : String → Except PyExn J)
    (s : String) : Except PyExn J :=
  let stripped := pyStripChars (fenceCandidate s.data)
  if stripped = [] then
    .error ⟨"ValueError", "Failed to parse Risk Analyst JSON output: No JSON content found"⟩
  else
    match loads (String.mk stripped) with
    | .ok j => .ok j
    | .error e =>
      .error ⟨"ValueError", "Failed to parse Risk Analyst JSON output: " ++ e.msg⟩

/-- `ComplianceOfficerAgent._validate_narrative_compliance`: the
word-count rule first (whitespace-split count over 120 fails), then the
required-term rule (every absent term reported), else compliant. -/
def _validate_narrative_compliance (narrative : String) : ComplianceCheck :=
  let word_count := pyWordCount narrative
  if word_count > 120 then
    ComplianceCheck.fail ("Narrative exceeds 120-word limit (" ++ toString word_count ++ " words)")
  else if missingTerms narrative ≠ [] then
    ComplianceCheck.fail ("Missing required terms: " ++ pyJoin (", ") (missingTerms narrative))
  else ComplianceCheck.ok

/-- External collaborators of `generate_compliance_narrative`,
abstracted: the chat call, `json.loads`, and the pydantic constructor
`ComplianceOfficerOutput(**parsed)`. -/
structure CoEnv (J : Type) where
  chat : String → String → Except PyExn String
  loads : String → Except PyExn J
  mkOutput : J → Except PyExn ComplianceOfficerOutput

/-- The `try` body of `generate_compliance_narrative`: build the prompt
(which raises a `TypeError` at the first mis-called formatter), then —
were that ever reached — call the model, extract and parse, construct
the output, and re-validate compliance, treating a violation as a
failure. -/
def narrative_body {J : Type} (c : CaseData) (ra : RiskAnalystOutput)
    (env : CoEnv J) : Except PyExn ComplianceOfficerOutput := do
  let prompt ← prompt_build c ra
  let content ← env.chat system_prompt prompt
  let parsed ← _extract_json_from_response env.loads content
  let output ← env.mkOutput parsed
  match _validate_narrative_compliance output.narrative with
  | ComplianceCheck.fail reason =>
    throw ⟨"ValueError", "Narrative compliance failed: " ++ reason⟩
  | ComplianceCheck.ok => pure output

/-- `ComplianceOfficerAgent.generate_compliance_narrative`: run the body
and log exactly one audit entry on either path; every caught exception is
re-raised as `ValueError(f"Failed to generate compliance narrative:
{e}")`. -/
def generate_compliance_narrative {J : Type} (c : CaseData) (ra : RiskAnalystOutput)
    (env : CoEnv J) :
    Except PyExn ComplianceOfficerOutput ×
      List (AuditLogEntry (CaseData × RiskAnalystOutput) ComplianceOfficerOutput) :=
  match narrative_body c ra env with
  | .ok output =>
    (.ok output,
      [{ agent_type := "ComplianceOfficerAgent", action := "generate_compliance_narrative",
         case_id := c.case_id, input_data := (c, ra),
         output_data := some output,
         reasoning := "Narrative generated successfully",
         execution_time_ms := 0, success := true, error_message := none }])
  | .error e =>
    (.error ⟨"ValueError", "Failed to generate compliance narrative: " ++ e.msg⟩,
      [{ agent_type := "ComplianceOfficerAgent", action := "generate_compliance_narrative",
         case_id := c.case_id, input_data := (c, ra),
         output_data := none,
         reasoning := "Narrative generation failed",
         execution_time_ms := 0, success := false,
         error_message := some e.msg }])

end ComplianceOfficerAgent

/-- A small concrete case used by witnesses and counterexamples. -/
def sampleCase : CaseData where
  case_id := "CASE-1"
  customer :=
    { customer_id := "CUST-1", name := "Jane Roe", date_of_birth := "1980-01-01",
      risk_rating := "High", customer_since := "2015-06-01" }
  accounts := [{ account_id := "ACC-1", account_type := "checking",
                 current_balance := (100000 : Int), status := "open" }]
  transactions := [{ transaction_date := "2024-01-05", amount := (500000 : Int),
                     method := "wire", transaction_type := "credit",
                     description := "inbound wire" }]

/-- A concrete upstream risk analysis used by witnesses and
counterexamples. -/
def sampleRA : RiskAnalystOutput where
  classification := "Fraud"
  confidence := 900
  risk_level := "High"
  suspicious_indicators := ["rapid movement of funds"]
  reasoning := "pattern of in-and-out transfers"

/-- The spec scenario case: 3 accounts with balances 1000.00, 2500.50 and
0.00, and 12 transactions. -/
def scenarioCase : CaseData where
  case_id := "CASE-3x12"
  customer :=
    { customer_id := "CUST-2", name := "John Roe", date_of_birth := "1975-03-02",
      risk_rating := "Medium", customer_since := "2012-01-15" }
  accounts :=
    [{ account_id := "ACC-1", account_type := "checking",
       current_balance := (100000 : Int), status := "open" },
     { account_id := "ACC-2", account_type := "savings",
       current_balance := (250050 : Int), status := "open" },
     { account_id := "ACC-3", account_type := "brokerage",
       current_balance := (0 : Int), status := "dormant" }]
  transactions :=
    (List.range 12).map (fun i =>
      { transaction_date := "2024-02-" ++ toString (i + 1),
        amount := ((1000 * ((i : Int) + 1)) : Int), method := "ach",
        transaction_type := "debit", description := "cash out " ++ toString (i + 1) })

/-- Environment whose chat call raises an exception with a non-empty
message (a transport failure). -/
def envChatBoom : RiskAnalystAgent.RaEnv Unit where
  chat := fun _ _ => .error ⟨"APIConnectionError", "connection reset by peer"⟩
  loads := fun _ => .ok ()
  mkOutput := fun _ => .ok sampleRA

/-- Environment whose chat call raises an exception whose `str` form is
empty (Python `Exception()`). -/
def envChatEmptyMsg : RiskAnalystAgent.RaEnv Unit where
  chat := fun _ _ => .error ⟨"Exception", ""⟩
  loads := fun _ => .ok ()
  mkOutput := fun _ => .ok sampleRA

/-- Environment whose chat call returns text that is not parseable, so
`json.loads` raises. -/
def envBadParse : RiskAnalystAgent.RaEnv Unit where
  chat := fun _ _ => .ok ("this is prose, not a payload")
  loads := fun _ => .error ⟨"JSONDecodeError", "Expecting value: line 1 column 1"⟩
  mkOutput := fun _ => .ok sampleRA

/-- Environment on which the whole risk-analyst pipeline succeeds. -/
def envOk : RiskAnalystAgent.RaEnv Unit where
  chat := fun _ _ => .ok ("payload")
  loads := fun _ => .ok ()
  mkOutput := fun _ => .ok sampleRA

/-- A compliance environment; `generate_compliance_narrative` never
consults it, which the theorems below make precise. -/
def coEnvAny : ComplianceOfficerAgent.CoEnv Unit where
  chat := fun _ _ => .ok ("payload")
  loads := fun _ => .ok ()
  mkOutput := fun _ =>
    .ok { case_id := "CASE-1", narrative := "n", word_count := 1,
          regulatory_citations := ["31 CFR 1020.320"] }


/-- Concatenation of a list of strings; used to state what the prompt
loops produce. -/
def strConcat (xs : List String) : String :=
  xs.foldr (fun x acc => x ++ acc) ""

/-- Follows the words of the spec (the refinement comparison for the
extraction claim): if a tagged block exists, the content strictly between
the first tagged opener and the next fence marker; otherwise, if a fence
exists, the content between the first pair of fence markers; otherwise
the full text.  When no closing marker follows, the remainder of the
text is used, matching the behaviour of the code on unclosed blocks. -/
def specCandidate (s : List Char) : List Char :=
  match firstOccIdx jsonTag s with
  | some i =>
    let rest := s.drop (i + jsonTag.length)
    (match firstOccIdx fence rest with
     | some j => rest.take j
     | none => rest)
  | none =>
    match firstOccIdx fence s with
    | some i =>
      let rest := s.drop (i + fence.length)
      (match firstOccIdx fence rest with
       | some j => rest.take j
       | none => rest)
    | none => s

/-- A response text on which the split-based selection and the
between-markers description disagree: a fence marker overlaps the next
tagged-opener occurrence. -/
def overlapText : String :=
  "```jsonx````jsony"

/-- The `TypeError` message produced when `_format_accounts` is invoked
through the class with a single argument. -/
def arityMsg : String :=
  "_format_accounts() missing 1 required positional argument"

/-- The word-limit failure reason for a given word count. -/
def wordLimitReason (wc : Nat) : String :=
  "Narrative exceeds 120-word limit (" ++ toString wc ++ " words)"

/-- A narrative of exactly 121 words containing all four required
terms. -/
def narrative121 : String :=
  pyJoin (" ") (["suspicious", "transaction", "customer", "account"] ++
    List.replicate 117 "item")

/-- A narrative of exactly 80 words containing every required term except
`account`. -/
def narrative80 : String :=
  pyJoin (" ") (["the", "customer", "made", "a", "suspicious", "transaction"] ++
    List.replicate 74 "pattern")

/-- A narrative of exactly 121 words containing none of the required
terms. -/
def narrative121bad : String :=
  pyJoin (" ") (List.replicate 121 "item")

/-- A compliance output whose `word_count` field disagrees with the
recomputed word count of its narrative, yet whose narrative passes
`_validate_narrative_compliance`. -/
def badOutput : ComplianceOfficerOutput where
  case_id := "CASE-1"
  narrative := "the customer account showed a suspicious transaction"
  word_count := 5
  regulatory_citations := ["31 CFR 1020.320"]

/-- A whitespace-only tagged fenced response. -/
def blankFenced : String :=
  "```json 
  ```"

/-- Two strings with the same character data are equal. -/
theorem str_ext {a b : String} (h : a.data = b.data) : a = b := by
  cases a
  cases b
  cases h
  rfl

/-- Appending strings appends their data. -/
theorem str_data_append (a b : String) : (a ++ b).data = a.data ++ b.data :=
  rfl

/-- The empty string is a right identity. -/
theorem str_append_empty (s : String) : s ++ "" = s :=
  str_ext (by simp [str_data_append])

/-- String append is associative. -/
theorem str_append_assoc (a b c : String) : a ++ b ++ c = a ++ (b ++ c) :=
  str_ext (by simp [str_data_append])

/-- A left fold that appends one rendering per element produces the
initial string followed by the concatenation of the renderings. -/
theorem foldl_append_eq_concat {α : Type} (f : α → String) :
    ∀ (l : List α) (init : String),
      l.foldl (fun s a => s ++ f a) init = init ++ strConcat (l.map f)
  | [], init => by simp [strConcat, str_append_empty]
  | a :: l, init => by
    simp only [List.foldl_cons, List.map_cons]
    rw [foldl_append_eq_concat f l (init ++ f a), str_append_assoc]
    rfl

/-- `txEnumLines` yields one line per transaction. -/
theorem txEnumLines_length :
    ∀ (i : Nat) (l : List TransactionData),
      (RiskAnalystAgent.txEnumLines i l).length = l.length
  | _, [] => rfl
  | i, _ :: ts => by
    simp [RiskAnalystAgent.txEnumLines, txEnumLines_length (i + 1) ts]

/-- A pattern is a prefix of itself followed by anything. -/
theorem isPre_append_self : ∀ (pat r : List Char), isPre pat (pat ++ r) = true
  | [], _ => rfl
  | p :: ps, r => by simp [isPre, isPre_append_self ps r]

/-- A successful prefix test pins the head of the scanned list. -/
theorem isPre_head {p : Char} {ps l : List Char} (h : isPre (p :: ps) l = true) :
    l.head? = some p := by
  cases l with
  | nil => simp [isPre] at h
  | cons c cs =>
    by_cases hc : p = c
    · subst hc; rfl
    · simp [isPre, hc] at h

/-- Scanning for a pattern that starts with a backtick past a
backtick-free block just shifts the found index. -/
theorem firstOccIdx_append_of_tickfree (pat : List Char) (hpat : pat.head? = some btick) :
    ∀ (b t : List Char), (∀ ch ∈ b, ch ≠ btick) →
      firstOccIdx pat (b ++ t) = (firstOccIdx pat t).map (fun r => r + b.length)
  | [], t, _ => by cases h : firstOccIdx pat t <;> simp [h]
  | ch :: b', t, hb => by
    obtain ⟨p, ps, rfl⟩ : ∃ p ps, pat = p :: ps := by
      cases pat with
      | nil => simp at hpat
      | cons p ps => exact ⟨p, ps, rfl⟩
    have hp : p = btick := by simpa using hpat
    have hch : ch ≠ btick := hb ch (by simp)
    have hne : ¬(p = ch) := by rw [hp]; exact fun h => hch h.symm
    have hnp : isPre (p :: ps) (ch :: (b' ++ t)) = false := by
      simp [isPre, hne]
    rw [List.cons_append, firstOccIdx, hnp]
    simp only [Bool.false_eq_true, if_false]
    rw [firstOccIdx_append_of_tickfree (p :: ps) hpat b' t (fun x hx => hb x (by simp [hx]))]
    cases h : firstOccIdx (p :: ps) t <;> (simp [h]; try omega)

/-- If a backtick-headed pattern starts right after a backtick-free
block, the scan finds it exactly there. -/
theorem firstOccIdx_boundary {pat a t : List Char} (hpat : pat.head? = some btick)
    (ha : ∀ ch ∈ a, ch ≠ btick) (ht : isPre pat t = true) :
    firstOccIdx pat (a ++ t) = some a.length := by
  rw [firstOccIdx_append_of_tickfree pat hpat a t ha]
  have h0 : firstOccIdx pat t = some 0 := by
    cases t with
    | nil =>
      cases pat with
      | nil => simp at hpat
      | cons p ps => simp [isPre] at ht
    | cons c cs => simp [firstOccIdx, ht]
  rw [h0]
  simp

/-- A backtick-headed pattern never occurs in a backtick-free list. -/
theorem firstOccIdx_none_of_tickfree {pat l : List Char} (hpat : pat.head? = some btick)
    (hl : ∀ ch ∈ l, ch ≠ btick) : firstOccIdx pat l = none := by
  have h := firstOccIdx_append_of_tickfree pat hpat l [] hl
  rw [List.append_nil] at h
  rw [h]
  cases pat with
  | nil => simp at hpat
  | cons p ps => simp [firstOccIdx]

/-- The split worker ignores the exact fuel value as long as it bounds
the length of the input. -/
theorem pySplitGo_fuel (pat : List Char) :
    ∀ (fuel : Nat) (fuel' : Nat) (s : List Char), s.length ≤ fuel → s.length ≤ fuel' →
      pySplitGo pat fuel s = pySplitGo pat fuel' s := by
  intro fuel
  induction fuel with
  | zero =>
    intro fuel' s hs _
    have : s = [] := List.eq_nil_of_length_eq_zero (Nat.le_zero.mp hs)
    subst this
    cases fuel' <;> rfl
  | succ f ih =>
    intro fuel' s hs hs'
    cases s with
    | nil => cases fuel' <;> rfl
    | cons c rest =>
      cases fuel' with
      | zero => simp at hs'
      | succ f' =>
        simp only [pySplitGo]
        by_cases hcond : isPre pat (c :: rest) = true ∧ pat ≠ []
        · rw [if_pos hcond, if_pos hcond]
          have hlen : ((c :: rest).drop pat.length).length ≤ rest.length := by
            have hp : 1 ≤ pat.length := by
              cases pat with
              | nil => exact absurd rfl hcond.2
              | cons q qs => simp
            simp only [List.length_drop, List.length_cons]
            omega
          have h1 : ((c :: rest).drop pat.length).length ≤ f := by
            have := Nat.le_of_succ_le_succ hs
            omega
          have h2 : ((c :: rest).drop pat.length).length ≤ f' := by
            have := Nat.le_of_succ_le_succ hs'
            omega
          rw [ih f' _ h1 h2]
        · rw [if_neg hcond, if_neg hcond]
          rw [ih f' rest (Nat.le_of_succ_le_succ hs) (Nat.le_of_succ_le_succ hs')]

/-- Unfolding equation of `pySplit` on a cons cell. -/
theorem pySplit_cons (pat : List Char) (c : Char) (rest : List Char) :
    pySplit pat (c :: rest) =
      if isPre pat (c :: rest) = true ∧ pat ≠ [] then
        [] :: pySplit pat ((c :: rest).drop pat.length)
      else
        match pySplit pat rest with
        | [] => [[c]]
        | p :: ps => (c :: p) :: ps := by
  show pySplitGo pat (rest.length + 1) (c :: rest) = _
  simp only [pySplitGo]
  by_cases hcond : isPre pat (c :: rest) = true ∧ pat ≠ []
  · rw [if_pos hcond, if_pos hcond]
    have hp : 1 ≤ pat.length := by
      cases pat with
      | nil => exact absurd rfl hcond.2
      | cons q qs => simp
    rw [pySplitGo_fuel pat rest.length ((c :: rest).drop pat.length).length _
      (by simp only [List.length_drop, List.length_cons]; omega) (le_refl _)]
    rfl
  · rw [if_neg hcond, if_neg hcond]
    rfl

/-- Splitting on an absent separator returns the whole list as the only
piece. -/
theorem pySplit_of_no_occ {pat : List Char} :
    ∀ {s : List Char}, firstOccIdx pat s = none → pySplit pat s = [s] := by
  intro s
  induction s with
  | nil => intro _; rfl
  | cons c rest ih =>
    intro h
    cases hb : isPre pat (c :: rest) with
    | true => simp [firstOccIdx, hb] at h
    | false =>
      have h2 : firstOccIdx pat rest = none := by
        rw [firstOccIdx, hb] at h
        simp only [Bool.false_eq_true, if_false] at h
        cases hr : firstOccIdx pat rest with
        | none => rfl
        | some j => rw [hr] at h; simp at h
      rw [pySplit_cons, if_neg (by simp [hb]), ih h2]

/-- Splitting when the first occurrence is at index `i`: the first piece
is the prefix of length `i` and the rest is the split of what follows
the separator. -/
theorem pySplit_of_first_occ {pat : List Char} (hpat : pat ≠ []) :
    ∀ (s : List Char) (i : Nat), firstOccIdx pat s = some i →
      pySplit pat s = s.take i :: pySplit pat (s.drop (i + pat.length)) := by
  intro s
  induction s with
  | nil =>
    intro i h
    cases pat with
    | nil => exact absurd rfl hpat
    | cons p ps => simp [firstOccIdx] at h
  | cons c rest ih =>
    intro i h
    cases hb : isPre pat (c :: rest) with
    | true =>
      have hi : i = 0 := by
        rw [firstOccIdx, hb] at h
        simp at h
        omega
      subst hi
      rw [pySplit_cons, if_pos ⟨hb, hpat⟩]
      simp
    | false =>
      rw [firstOccIdx, hb] at h
      simp only [Bool.false_eq_true, if_false] at h
      cases hr : firstOccIdx pat rest with
      | none => rw [hr] at h; simp at h
      | some j =>
        rw [hr] at h
        simp only [Option.map_some'] at h
        have hi : i = j + 1 := by
          have := Option.some.inj h
          omega
        subst hi
        rw [pySplit_cons, if_neg (by simp [hb]), ih j hr]
        have harith : j + 1 + pat.length = (j + pat.length) + 1 := by omega
        rw [harith]
        simp [List.drop_succ_cons, List.take_succ_cons]

/-- The first occurrence index really is an occurrence. -/
theorem isPre_of_firstOccIdx {pat : List Char} :
    ∀ {s : List Char} {i : Nat}, firstOccIdx pat s = some i →
      isPre pat (s.drop i) = true := by
  intro s
  induction s with
  | nil =>
    intro i h
    by_cases hp : pat = []
    · subst hp; rfl
    · simp [firstOccIdx, hp] at h
  | cons c rest ih =>
    intro i h
    cases hb : isPre pat (c :: rest) with
    | true =>
      rw [firstOccIdx, hb] at h
      simp at h
      have hi : i = 0 := by omega
      subst hi
      simpa using hb
    | false =>
      rw [firstOccIdx, hb] at h
      simp only [Bool.false_eq_true, if_false] at h
      cases hr : firstOccIdx pat rest with
      | none => rw [hr] at h; simp at h
      | some j =>
        rw [hr] at h
        simp only [Option.map_some'] at h
        have hi : i = j + 1 := by
          have := Option.some.inj h
          omega
        subst hi
        simpa [List.drop_succ_cons] using ih hr

/-- Shape of the tagged opener. -/
theorem jsonTag_eq :
    jsonTag = btick :: btick :: btick :: 'j' :: 's' :: 'o' :: 'n' :: [] := by
  decide

/-- Shape of the fence marker. -/
theorem fence_eq : fence = btick :: btick :: btick :: [] := by
  decide

/-- The tagged opener starts with a backtick. -/
theorem jsonTag_head : jsonTag.head? = some btick := by
  decide

/-- The fence marker starts with a backtick. -/
theorem fence_head : fence.head? = some btick := by
  decide

/-- The tagged opener is non-empty. -/
theorem jsonTag_ne_nil : jsonTag ≠ [] := by
  decide

/-- The fence marker is non-empty. -/
theorem fence_ne_nil : fence ≠ [] := by
  decide

/-- The tagged opener is not a prefix of a fence marker followed by
text whose first character is not a backtick. -/
theorem isPre_jsonTag_two_ticks {c : List Char} (hc : ∀ ch ∈ c.take 1, ch ≠ btick) :
    isPre jsonTag (btick :: btick :: c) = false ∧
      isPre jsonTag (btick :: c) = false := by
  rw [jsonTag_eq]
  cases c with
  | nil => exact ⟨by simp [isPre], by simp [isPre]⟩
  | cons ch cs =>
    have h1 : ch ≠ btick := hc ch (by simp)
    have hne : ¬(btick = ch) := fun h => h1 h.symm
    exact ⟨by simp [isPre, hne], by simp [isPre, hne]⟩

/-- Occurrences of the tagged opener in `fence ++ c` when `c` does not
start with a backtick: either the opener sits right at the fence (when
`c` begins with the word part of the tag) or every occurrence lies inside `c`. -/
theorem firstOcc_jsonTag_after_fence {c : List Char}
    (hc : ∀ ch ∈ c.take 1, ch ≠ btick) :
    firstOccIdx jsonTag (fence ++ c) = some 0 ∨
      firstOccIdx jsonTag (fence ++ c) =
        (firstOccIdx jsonTag c).map (fun r => r + 3) := by
  have hfc : fence ++ c = btick :: btick :: btick :: c := by
    rw [fence_eq]
    rfl
  rw [hfc]
  by_cases hpre : isPre jsonTag (btick :: btick :: btick :: c) = true
  · left
    rw [firstOccIdx, if_pos hpre]
  · right
    have hp0 : isPre jsonTag (btick :: btick :: btick :: c) = false :=
      Bool.eq_false_iff.mpr hpre
    have hp1 := (isPre_jsonTag_two_ticks hc).1
    have hp2 := (isPre_jsonTag_two_ticks hc).2
    rw [firstOccIdx, hp0]
    simp only [Bool.false_eq_true, if_false]
    rw [firstOccIdx, hp1]
    simp only [Bool.false_eq_true, if_false]
    rw [firstOccIdx, hp2]
    simp only [Bool.false_eq_true, if_false]
    cases h : firstOccIdx jsonTag c with
    | none => simp [h]
    | some r =>
      simp [h]
      try omega

/-- Tagged-block branch: for a response that decomposes as pre-text,
tagged opener, block content and closing fence — with no stray backtick
in the pre-text or the content, and the trailing text not starting with
a backtick — the fence selection of both agents and the between-markers
description of the spec all yield the block content. -/
theorem candidates_json_branch (a b c : List Char)
    (ha : ∀ ch ∈ a, ch ≠ btick) (hb : ∀ ch ∈ b, ch ≠ btick)
    (hc : ∀ ch ∈ c.take 1, ch ≠ btick) :
    RiskAnalystAgent.fenceCandidate (a ++ jsonTag ++ b ++ fence ++ c) = b ∧
    ComplianceOfficerAgent.fenceCandidate (a ++ jsonTag ++ b ++ fence ++ c) = b ∧
    specCandidate (a ++ jsonTag ++ b ++ fence ++ c) = b := by
  have hs : a ++ jsonTag ++ b ++ fence ++ c = a ++ (jsonTag ++ (b ++ (fence ++ c))) := by
    simp [List.append_assoc]
  rw [hs]
  have hOcc : firstOccIdx jsonTag (a ++ (jsonTag ++ (b ++ (fence ++ c)))) = some a.length :=
    firstOccIdx_boundary jsonTag_head ha (isPre_append_self _ _)
  have hdrop : (a ++ (jsonTag ++ (b ++ (fence ++ c)))).drop (a.length + jsonTag.length) =
      b ++ (fence ++ c) := by
    rw [show a ++ (jsonTag ++ (b ++ (fence ++ c))) = (a ++ jsonTag) ++ (b ++ (fence ++ c)) by
      simp [List.append_assoc]]
    rw [show a.length + jsonTag.length = (a ++ jsonTag).length by simp]
    exact List.drop_left _ _
  have hsplit := pySplit_of_first_occ jsonTag_ne_nil _ _ hOcc
  rw [hdrop] at hsplit
  have hOccFence : firstOccIdx fence (b ++ (fence ++ c)) = some b.length :=
    firstOccIdx_boundary fence_head hb (isPre_append_self _ _)
  have hshift := firstOccIdx_append_of_tickfree jsonTag jsonTag_head b (fence ++ c) hb
  have hcode :
      (pySplit fence
        ((pySplit jsonTag (a ++ (jsonTag ++ (b ++ (fence ++ c))))).getD 1 [])).getD 0 [] = b := by
    rw [hsplit]
    simp only [List.getD_cons_succ]
    rcases firstOcc_jsonTag_after_fence hc with h0 | hmap
    · have hocc2 : firstOccIdx jsonTag (b ++ (fence ++ c)) = some b.length := by
        rw [hshift, h0]
        simp
      rw [pySplit_of_first_occ jsonTag_ne_nil _ _ hocc2]
      simp only [List.getD_cons_zero]
      rw [List.take_left]
      rw [pySplit_of_no_occ (firstOccIdx_none_of_tickfree fence_head hb)]
      simp
    · cases hr : firstOccIdx jsonTag c with
      | none =>
        have hocc2 : firstOccIdx jsonTag (b ++ (fence ++ c)) = none := by
          rw [hshift, hmap, hr]
          rfl
        rw [pySplit_of_no_occ hocc2]
        simp only [List.getD_cons_zero]
        rw [pySplit_of_first_occ fence_ne_nil _ _ hOccFence]
        simp only [List.getD_cons_zero]
        exact List.take_left _ _
      | some r =>
        have hocc2 : firstOccIdx jsonTag (b ++ (fence ++ c)) = some (b.length + (3 + r)) := by
          rw [hshift, hmap, hr]
          simp only [Option.map_some']
          exact congrArg some (by omega)
        rw [pySplit_of_first_occ jsonTag_ne_nil _ _ hocc2]
        simp only [List.getD_cons_zero]
        rw [List.take_append]
        rw [show (3 : Nat) + r = fence.length + r from rfl]
        rw [List.take_append]
        have hx : firstOccIdx fence (b ++ (fence ++ c.take r)) = some b.length :=
          firstOccIdx_boundary fence_head hb (isPre_append_self _ _)
        rw [pySplit_of_first_occ fence_ne_nil _ _ hx]
        simp only [List.getD_cons_zero]
        exact List.take_left _ _
  refine ⟨?_, ?_, ?_⟩
  · unfold RiskAnalystAgent.fenceCandidate
    rw [hOcc]
    simpa using hcode
  · unfold ComplianceOfficerAgent.fenceCandidate
    rw [hOcc]
    simpa using hcode
  · unfold specCandidate
    rw [hOcc]
    simp only []
    rw [hdrop, hOccFence]
    exact List.take_left _ _

/-- Plain-fence branch: when no tagged opener occurs anywhere and the
response decomposes as pre-text, fence, block content and closing fence
— with no stray backtick in the pre-text or content — the fence
selection of both agents and the between-the-first-pair description of
the spec all yield the block content (whatever follows the closing fence). -/
theorem candidates_fence_branch (a b c : List Char)
    (hnojson : firstOccIdx jsonTag (a ++ fence ++ b ++ fence ++ c) = none)
    (ha : ∀ ch ∈ a, ch ≠ btick) (hb : ∀ ch ∈ b, ch ≠ btick) :
    RiskAnalystAgent.fenceCandidate (a ++ fence ++ b ++ fence ++ c) = b ∧
    ComplianceOfficerAgent.fenceCandidate (a ++ fence ++ b ++ fence ++ c) = b ∧
    specCandidate (a ++ fence ++ b ++ fence ++ c) = b := by
  have hs : a ++ fence ++ b ++ fence ++ c = a ++ (fence ++ (b ++ (fence ++ c))) := by
    simp [List.append_assoc]
  rw [hs] at hnojson ⊢
  have hOcc : firstOccIdx fence (a ++ (fence ++ (b ++ (fence ++ c)))) = some a.length :=
    firstOccIdx_boundary fence_head ha (isPre_append_self _ _)
  have hdrop : (a ++ (fence ++ (b ++ (fence ++ c)))).drop (a.length + fence.length) =
      b ++ (fence ++ c) := by
    rw [show a ++ (fence ++ (b ++ (fence ++ c))) = (a ++ fence) ++ (b ++ (fence ++ c)) by
      simp [List.append_assoc]]
    rw [show a.length + fence.length = (a ++ fence).length by simp]
    exact List.drop_left _ _
  have hsplit := pySplit_of_first_occ fence_ne_nil _ _ hOcc
  rw [hdrop] at hsplit
  have hOcc2 : firstOccIdx fence (b ++ (fence ++ c)) = some b.length :=
    firstOccIdx_boundary fence_head hb (isPre_append_self _ _)
  have hsplit2 := pySplit_of_first_occ fence_ne_nil _ _ hOcc2
  have hpiece : (pySplit fence (a ++ (fence ++ (b ++ (fence ++ c))))).getD 1 [] = b := by
    rw [hsplit, hsplit2]
    simp only [List.getD_cons_succ, List.getD_cons_zero]
    exact List.take_left _ _
  refine ⟨?_, ?_, ?_⟩
  · unfold RiskAnalystAgent.fenceCandidate
    rw [hnojson, hOcc]
    simpa using hpiece
  · unfold ComplianceOfficerAgent.fenceCandidate
    rw [hnojson, hOcc]
    simp only [Option.isSome_none, Option.isSome_some, Bool.false_eq_true, if_false, if_true]
    rw [hpiece]
    rw [pySplit_of_no_occ (firstOccIdx_none_of_tickfree fence_head hb)]
    simp
  · unfold specCandidate
    rw [hnojson]
    simp only []
    rw [hOcc]
    simp only []
    rw [hdrop, hOcc2]
    exact List.take_left _ _

/-- No-fence branch: when neither marker occurs, the fence selection of
both agents and the spec description keep the whole text. -/
theorem candidates_plain_branch (s : List Char)
    (h1 : firstOccIdx jsonTag s = none) (h2 : firstOccIdx fence s = none) :
    RiskAnalystAgent.fenceCandidate s = s ∧
    ComplianceOfficerAgent.fenceCandidate s = s ∧
    specCandidate s = s := by
  refine ⟨?_, ?_, ?_⟩
  · unfold RiskAnalystAgent.fenceCandidate
    rw [h1, h2]
    rfl
  · unfold ComplianceOfficerAgent.fenceCandidate
    rw [h1, h2]
    rfl
  · unfold specCandidate
    rw [h1]
    simp only []
    rw [h2]

/-- When the try body succeeds, `analyze_case` returns the output and
logs the one success entry (no `error_message`). -/
theorem analyze_case_of_body_ok {J : Type} {c : CaseData} {env : RiskAnalystAgent.RaEnv J}
    {output : RiskAnalystOutput} {parsed : J}
    (h : RiskAnalystAgent.analyze_body c env = .ok (output, parsed)) :
    RiskAnalystAgent.analyze_case c env =
      (.ok output,
        [{ agent_type := "RiskAnalyst", action := "analyze_case",
           case_id := c.case_id,
           input_data := RiskAnalystAgent._format_case_for_prompt c,
           output_data := some parsed,
           reasoning := "Chain-of-Thought classification",
           execution_time_ms := 0, success := true, error_message := none }]) := by
  unfold RiskAnalystAgent.analyze_case
  rw [h]

/-- When the try body raises, `analyze_case` logs the one failure entry
carrying `str(e)` and raises `ValueError("No JSON content found")`. -/
theorem analyze_case_of_body_err {J : Type} {c : CaseData} {env : RiskAnalystAgent.RaEnv J}
    {e : PyExn} (h : RiskAnalystAgent.analyze_body c env = .error e) :
    RiskAnalystAgent.analyze_case c env =
      (.error ⟨"ValueError", "No JSON content found"⟩,
        [{ agent_type := "RiskAnalystS", action := "analyze_case",
           case_id := c.case_id,
           input_data := RiskAnalystAgent._format_case_for_prompt c,
           output_data := none,
           reasoning := "Failed to classify case",
           execution_time_ms := 0, success := false,
           error_message := some e.msg }]) := by
  unfold RiskAnalystAgent.analyze_case
  rw [h]

/-- A raised chat exception propagates out of the try body of the risk
analyst. -/
theorem analyze_body_of_chat_err {J : Type} {c : CaseData} {env : RiskAnalystAgent.RaEnv J}
    {ex : PyExn}
    (h : env.chat RiskAnalystAgent.system_prompt (RiskAnalystAgent._format_case_for_prompt c) =
      .error ex) :
    RiskAnalystAgent.analyze_body c env = .error ex := by
  unfold RiskAnalystAgent.analyze_body
  rw [h]
  rfl

/-- A `json.loads` failure on the extracted text propagates out of the
try body of the risk analyst. -/
theorem analyze_body_of_loads_err {J : Type} {c : CaseData} {env : RiskAnalystAgent.RaEnv J}
    {text content : String} {ex : PyExn}
    (hchat : env.chat RiskAnalystAgent.system_prompt (RiskAnalystAgent._format_case_for_prompt c) =
      .ok text)
    (hex : RiskAnalystAgent._extract_json_from_response text = .ok content)
    (hloads : env.loads content = .error ex) :
    RiskAnalystAgent.analyze_body c env = .error ex := by
  simp [RiskAnalystAgent.analyze_body, hchat, hex, hloads, Bind.bind, Except.bind]

/-- An extraction failure propagates out of the try body of the risk
analyst. -/
theorem analyze_body_of_extract_err {J : Type} {c : CaseData} {env : RiskAnalystAgent.RaEnv J}
    {text : String} {ex : PyExn}
    (hchat : env.chat RiskAnalystAgent.system_prompt (RiskAnalystAgent._format_case_for_prompt c) =
      .ok text)
    (hex : RiskAnalystAgent._extract_json_from_response text = .error ex) :
    RiskAnalystAgent.analyze_body c env = .error ex := by
  simp [RiskAnalystAgent.analyze_body, hchat, hex, Bind.bind, Except.bind]

/-- The extraction of the risk analyst only ever raises one exception: the
wrapped `ValueError`. -/
theorem ra_extract_err_shape {s : String} {ex : PyExn}
    (h : RiskAnalystAgent._extract_json_from_response s = .error ex) :
    ex = ⟨"ValueError", "No JSON content found: No JSON content found"⟩ := by
  unfold RiskAnalystAgent._extract_json_from_response at h
  by_cases hb : pyStripChars (RiskAnalystAgent.fenceCandidate s.data) = []
  · rw [if_pos hb] at h
    exact (Except.error.inj h).symm
  · rw [if_neg hb] at h
    exact absurd h (by simp)

/-- The compliance try body always raises the arity `TypeError` from the
first mis-called formatter, before any collaborator is consulted. -/
theorem narrative_body_err {J : Type} (c : CaseData) (ra : RiskAnalystOutput)
    (env : ComplianceOfficerAgent.CoEnv J) :
    ComplianceOfficerAgent.narrative_body c ra env = .error ⟨"TypeError", arityMsg⟩ := by
  simp [ComplianceOfficerAgent.narrative_body, ComplianceOfficerAgent.prompt_build,
    pyCallStr, pyCall, RiskAnalystAgent.formatAccountsCallable, arityMsg,
    Bind.bind, Except.bind]
  rfl

/-- Full behaviour of `generate_compliance_narrative`: it always raises
the wrapped `ValueError` and logs the one failure entry. -/
theorem generate_compliance_narrative_eq {J : Type} (c : CaseData) (ra : RiskAnalystOutput)
    (env : ComplianceOfficerAgent.CoEnv J) :
    ComplianceOfficerAgent.generate_compliance_narrative c ra env =
      (.error ⟨"ValueError", "Failed to generate compliance narrative: " ++ arityMsg⟩,
        [{ agent_type := "ComplianceOfficerAgent",
           action := "generate_compliance_narrative",
           case_id := c.case_id, input_data := (c, ra), output_data := none,
           reasoning := "Narrative generation failed",
           execution_time_ms := 0, success := false,
           error_message := some arityMsg }]) := by
  unfold ComplianceOfficerAgent.generate_compliance_narrative
  rw [narrative_body_err]

/-- C1: for every `CaseData`, the risk analyst prompt is the customer
header followed by exactly one line per account (in input order), the
transaction header, exactly one line per transaction of
`transactions[:10]` — the first ten in input order, i.e. at most ten —
and the financial summary; and the account and
transaction views (`_format_accounts`, `_format_transactions`) likewise
render every account exactly once and exactly the first ten transactions
once each. -/
theorem claim_C1 (c : CaseData) :
    RiskAnalystAgent._format_case_for_prompt c =
        RiskAnalystAgent.customerHeader c ++
          strConcat (c.accounts.map RiskAnalystAgent.accountLine) ++
          (RiskAnalystAgent.txHeader c ++
            strConcat ((c.transactions.take 10).map RiskAnalystAgent.txLine)) ++
          RiskAnalystAgent.statsBlock c
    ∧ (c.accounts.map RiskAnalystAgent.accountLine).length = c.accounts.length
    ∧ ((c.transactions.take 10).map RiskAnalystAgent.txLine).length =
        min 10 c.transactions.length
    ∧ (c.accounts ≠ [] →
        RiskAnalystAgent._format_accounts c.accounts =
          "Accounts (" ++ toString c.accounts.length ++ "):\n" ++
            pyJoin ("\n") (c.accounts.map RiskAnalystAgent.acLine)
        ∧ (c.accounts.map RiskAnalystAgent.acLine).length = c.accounts.length)
    ∧ (c.transactions ≠ [] →
        RiskAnalystAgent._format_transactions c.transactions =
          "Transactions (" ++ toString c.transactions.length ++
              " shown below, max 10):\n" ++
            pyJoin ("\n") (RiskAnalystAgent.txEnumLines 0 (c.transactions.take 10))
        ∧ (RiskAnalystAgent.txEnumLines 0 (c.transactions.take 10)).length =
            min 10 c.transactions.length) := by
  refine ⟨?_, by simp, by simp [List.length_take], ?_, ?_⟩
  · unfold RiskAnalystAgent._format_case_for_prompt
    rw [foldl_append_eq_concat, foldl_append_eq_concat]
  · intro h
    refine ⟨?_, by simp⟩
    unfold RiskAnalystAgent._format_accounts
    rw [if_neg h]
  · intro h
    refine ⟨?_, ?_⟩
    · unfold RiskAnalystAgent._format_transactions
      rw [if_neg h]
    · rw [txEnumLines_length]
      simp [List.length_take]

/-- C1 witness: on the spec scenario (3 accounts with balances 1000.00,
2500.50, 0.00 and 12 transactions) the renderings of both agents list exactly
3 account lines and exactly 10 transaction lines. -/
theorem claim_C1_witness :
    (scenarioCase.accounts.map RiskAnalystAgent.accountLine).length = 3
    ∧ ((scenarioCase.transactions.take 10).map RiskAnalystAgent.txLine).length = 10
    ∧ (scenarioCase.accounts.map RiskAnalystAgent.acLine).length = 3
    ∧ (RiskAnalystAgent.txEnumLines 0 (scenarioCase.transactions.take 10)).length = 10 := by
  have h := claim_C1 scenarioCase
  have h4 := h.2.2.2.1 (by decide)
  have h5 := h.2.2.2.2 (by decide)
  exact ⟨h.2.1.trans (by decide), h.2.2.1.trans (by decide),
    h4.2.trans (by decide), h5.2.trans (by decide)⟩

/-- C2: for every case, upstream risk analysis and environment, the
prompt construction of the compliance agent fails with a `TypeError` at the
mis-called formatter before the model is ever consulted, the failure is
logged with `success=false` and `error_message=str(e)`, and the call
re-raises a `ValueError`; a `ComplianceOfficerOutput` is never
returned. -/
theorem claim_C2 {J : Type} (c : CaseData) (ra : RiskAnalystOutput)
    (env : ComplianceOfficerAgent.CoEnv J) :
    ComplianceOfficerAgent.narrative_body c ra env = .error ⟨"TypeError", arityMsg⟩
    ∧ ComplianceOfficerAgent.generate_compliance_narrative c ra env =
      (.error ⟨"ValueError", "Failed to generate compliance narrative: " ++ arityMsg⟩,
        [{ agent_type := "ComplianceOfficerAgent",
           action := "generate_compliance_narrative",
           case_id := c.case_id, input_data := (c, ra), output_data := none,
           reasoning := "Narrative generation failed",
           execution_time_ms := 0, success := false,
           error_message := some arityMsg }]) :=
  ⟨narrative_body_err c ra env, generate_compliance_narrative_eq c ra env⟩

/-- C3 counterexample: when the external model call raises an exception
whose string form is empty (Python `Exception()`), the one failure entry
recorded by `analyze_case` carries `error_message=""` — an empty
message, contradicting the claim that `success=false` entries always
carry a non-empty `error_message`. -/
theorem claim_C3_counterexample :
    ((RiskAnalystAgent.analyze_case sampleCase envChatEmptyMsg).2.map
        (fun e => (e.success, e.error_message))) = [(false, some (""))] := by
  rfl

/-- C3 amended: each invocation of either agent records exactly one
audit entry; `success=true` entries never carry an `error_message`;
`success=false` entries always carry `some` message, equal to `str` of
the caught exception — so it is non-empty whenever that string form is
(in particular for extraction failures and for the constant compliance
`TypeError`), but equals the own text of the external exception when
the model call raises. -/
theorem claim_C3_amended {J₁ J₂ : Type} (c : CaseData) (ra : RiskAnalystOutput)
    (envA : RiskAnalystAgent.RaEnv J₁) (envC : ComplianceOfficerAgent.CoEnv J₂) :
    (RiskAnalystAgent.analyze_case c envA).2.length = 1
    ∧ (∀ e ∈ (RiskAnalystAgent.analyze_case c envA).2,
        (e.success = true → e.error_message = none)
        ∧ (e.success = false → ∃ m, e.error_message = some m))
    ∧ (∀ ex, envA.chat RiskAnalystAgent.system_prompt
          (RiskAnalystAgent._format_case_for_prompt c) = .error ex →
        ∀ e ∈ (RiskAnalystAgent.analyze_case c envA).2,
          e.success = false ∧ e.error_message = some ex.msg)
    ∧ (∀ (text : String) (ex : PyExn),
        envA.chat RiskAnalystAgent.system_prompt
          (RiskAnalystAgent._format_case_for_prompt c) = .ok text →
        RiskAnalystAgent._extract_json_from_response text = .error ex →
        (∀ e ∈ (RiskAnalystAgent.analyze_case c envA).2,
          e.success = false ∧ e.error_message = some ex.msg) ∧ ex.msg ≠ "")
    ∧ (ComplianceOfficerAgent.generate_compliance_narrative c ra envC).2.length = 1
    ∧ (∀ e ∈ (ComplianceOfficerAgent.generate_compliance_narrative c ra envC).2,
        e.success = false ∧ e.error_message = some arityMsg ∧ arityMsg ≠ "") := by
  have hco := generate_compliance_narrative_eq c ra envC
  have hco1 : (ComplianceOfficerAgent.generate_compliance_narrative c ra envC).2.length = 1 := by
    rw [hco]
    rfl
  have hco2 : ∀ e ∈ (ComplianceOfficerAgent.generate_compliance_narrative c ra envC).2,
      e.success = false ∧ e.error_message = some arityMsg ∧ arityMsg ≠ "" := by
    rw [hco]
    intro e he
    rw [List.mem_singleton] at he
    subst he
    exact ⟨rfl, rfl, by decide⟩
  cases hbody : RiskAnalystAgent.analyze_body c envA with
  | ok pr =>
    obtain ⟨o, p⟩ := pr
    rw [analyze_case_of_body_ok hbody]
    refine ⟨rfl, ?_, ?_, ?_, hco1, hco2⟩
    · intro e he
      rw [List.mem_singleton] at he
      subst he
      exact ⟨fun _ => rfl, fun hf => by simp at hf⟩
    · intro ex hchat
      have := analyze_body_of_chat_err hchat
      rw [hbody] at this
      exact absurd this (by simp)
    · intro text ex hchat hex
      have := analyze_body_of_extract_err hchat hex
      rw [hbody] at this
      exact absurd this (by simp)
  | error e =>
    rw [analyze_case_of_body_err hbody]
    refine ⟨rfl, ?_, ?_, ?_, hco1, hco2⟩
    · intro en he
      rw [List.mem_singleton] at he
      subst he
      exact ⟨fun ht => by simp at ht, fun _ => ⟨e.msg, rfl⟩⟩
    · intro ex hchat
      have := analyze_body_of_chat_err hchat
      rw [hbody] at this
      have hee : e = ex := Except.error.inj this
      subst hee
      intro en he
      rw [List.mem_singleton] at he
      subst he
      exact ⟨rfl, rfl⟩
    · intro text ex hchat hex
      have := analyze_body_of_extract_err hchat hex
      rw [hbody] at this
      have hee : e = ex := Except.error.inj this
      subst hee
      have hshape := ra_extract_err_shape hex
      constructor
      · intro en he
        rw [List.mem_singleton] at he
        subst he
        exact ⟨rfl, rfl⟩
      · rw [hshape]
        decide

/-- C3 witness: a transport failure records exactly one `success=false`
entry carrying the exception text; a fully successful run records a
`success=true` entry with no `error_message`; the compliance agent
records exactly one entry. -/
theorem claim_C3_witness :
    (RiskAnalystAgent.analyze_case sampleCase envChatBoom).2.length = 1
    ∧ (∀ e ∈ (RiskAnalystAgent.analyze_case sampleCase envChatBoom).2,
        e.success = false ∧ e.error_message = some ("connection reset by peer"))
    ∧ (∀ e ∈ (RiskAnalystAgent.analyze_case sampleCase envOk).2,
        e.success = true → e.error_message = none)
    ∧ (ComplianceOfficerAgent.generate_compliance_narrative sampleCase sampleRA coEnvAny).2.length = 1 := by
  have h := @claim_C3_amended Unit Unit sampleCase sampleRA envChatBoom coEnvAny
  have h2 := @claim_C3_amended Unit Unit sampleCase sampleRA envOk coEnvAny
  refine ⟨h.1, ?_, ?_, h.2.2.2.2.1⟩
  · exact h.2.2.1 ⟨"APIConnectionError", "connection reset by peer"⟩ rfl
  · intro e he ht
    exact (h2.2.1 e he).1 ht

/-- C4: a whitespace-split word count over 120 makes narrative
validation fail with the reason citing the 120-word limit (and the
actual count); a count of at most 120 passes this rule — the result is
then either compliant or the terminology failure. -/
theorem claim_C4 (narrative : String) :
    (120 < pyWordCount narrative →
      ComplianceOfficerAgent._validate_narrative_compliance narrative =
        ComplianceCheck.fail (wordLimitReason (pyWordCount narrative)))
    ∧ (pyWordCount narrative ≤ 120 →
        ComplianceOfficerAgent._validate_narrative_compliance narrative = ComplianceCheck.ok
        ∨ ComplianceOfficerAgent._validate_narrative_compliance narrative =
            ComplianceCheck.fail
              ("Missing required terms: " ++ pyJoin (", ") (missingTerms narrative))) := by
  constructor
  · intro h
    unfold ComplianceOfficerAgent._validate_narrative_compliance
    rw [if_pos h]
    rfl
  · intro h
    unfold ComplianceOfficerAgent._validate_narrative_compliance
    rw [if_neg (Nat.not_lt.mpr h)]
    by_cases hm : missingTerms narrative = []
    · left
      rw [if_neg (by simp [hm])]
    · right
      rw [if_pos hm]

set_option maxRecDepth 8000 in
/-- C4 witness: a narrative of exactly 121 words containing all four
required terms fails with the reason citing the 120-word limit. -/
theorem claim_C4_witness :
    pyWordCount narrative121 = 121
    ∧ missingTerms narrative121 = []
    ∧ ComplianceOfficerAgent._validate_narrative_compliance narrative121 =
        ComplianceCheck.fail ("Narrative exceeds 120-word limit (121 words)") := by
  refine ⟨by decide, by decide, ?_⟩
  exact (claim_C4 narrative121).1 (by decide)

/-- C5: within the word limit, validation passes exactly when every
required term occurs in the lower-cased narrative; otherwise it fails
with a reason listing precisely the absent terms (in the fixed source
order), and a term is listed exactly when it is absent. -/
theorem claim_C5 (narrative : String) (h : pyWordCount narrative ≤ 120) :
    (missingTerms narrative = [] →
      ComplianceOfficerAgent._validate_narrative_compliance narrative = ComplianceCheck.ok)
    ∧ (missingTerms narrative ≠ [] →
        ComplianceOfficerAgent._validate_narrative_compliance narrative =
          ComplianceCheck.fail
            ("Missing required terms: " ++ pyJoin (", ") (missingTerms narrative)))
    ∧ (∀ t ∈ required_terms,
        t ∈ missingTerms narrative ↔ pyContains (pyLower narrative) t = false) := by
  refine ⟨?_, ?_, ?_⟩
  · intro hm
    unfold ComplianceOfficerAgent._validate_narrative_compliance
    rw [if_neg (Nat.not_lt.mpr h), if_neg (by simp [hm])]
  · intro hm
    unfold ComplianceOfficerAgent._validate_narrative_compliance
    rw [if_neg (Nat.not_lt.mpr h), if_pos hm]
  · intro t ht
    unfold missingTerms
    rw [List.mem_filter]
    simp [ht]

set_option maxRecDepth 8000 in
/-- C5 witness: an 80-word narrative missing only the term `account`
fails with a reason naming exactly `account`. -/
theorem claim_C5_witness :
    pyWordCount narrative80 = 80
    ∧ missingTerms narrative80 = ["account"]
    ∧ ComplianceOfficerAgent._validate_narrative_compliance narrative80 =
        ComplianceCheck.fail ("Missing required terms: account") := by
  refine ⟨by decide, by decide, ?_⟩
  exact (claim_C5 narrative80 (by decide)).2.1 (by decide)

/-- C6 counterexample: on the response where a fence marker overlaps the
next tagged-opener occurrence, both agents select the split segment
including its trailing backtick, not the content strictly between the
opener and the next fence marker — so the claimed between-markers
description is false of the code at this input. -/
theorem claim_C6_counterexample :
    RiskAnalystAgent.fenceCandidate overlapText.data = ("x`" : String).data
    ∧ ComplianceOfficerAgent.fenceCandidate overlapText.data = ("x`" : String).data
    ∧ specCandidate overlapText.data = ("x" : String).data
    ∧ RiskAnalystAgent.fenceCandidate overlapText.data ≠ specCandidate overlapText.data := by
  exact ⟨rfl, rfl, rfl, by decide⟩

/-- C6 amended: extraction selects by the claimed fixed precedence —
tagged block first, then first plain fenced block (only the first of
several blocks), then the full text — and the selected content is the
text strictly between the opening marker and the next fence marker
whenever no backtick adjoins the block boundaries (no backtick in the
pre-text or the block content, and the text after the closing fence not
starting with one); when backtick runs overlap a later marker
occurrence the split-based scan may instead retain trailing backticks
(see the counterexample). -/
theorem claim_C6_amended :
    (∀ a b c : List Char,
        (∀ ch ∈ a, ch ≠ btick) → (∀ ch ∈ b, ch ≠ btick) →
        (∀ ch ∈ c.take 1, ch ≠ btick) →
        RiskAnalystAgent.fenceCandidate (a ++ jsonTag ++ b ++ fence ++ c) = b
        ∧ ComplianceOfficerAgent.fenceCandidate (a ++ jsonTag ++ b ++ fence ++ c) = b
        ∧ specCandidate (a ++ jsonTag ++ b ++ fence ++ c) = b)
    ∧ (∀ a b c : List Char,
        firstOccIdx jsonTag (a ++ fence ++ b ++ fence ++ c) = none →
        (∀ ch ∈ a, ch ≠ btick) → (∀ ch ∈ b, ch ≠ btick) →
        RiskAnalystAgent.fenceCandidate (a ++ fence ++ b ++ fence ++ c) = b
        ∧ ComplianceOfficerAgent.fenceCandidate (a ++ fence ++ b ++ fence ++ c) = b
        ∧ specCandidate (a ++ fence ++ b ++ fence ++ c) = b)
    ∧ (∀ s : List Char,
        firstOccIdx jsonTag s = none → firstOccIdx fence s = none →
        RiskAnalystAgent.fenceCandidate s = s
        ∧ ComplianceOfficerAgent.fenceCandidate s = s
        ∧ specCandidate s = s) :=
  ⟨candidates_json_branch, candidates_fence_branch, candidates_plain_branch⟩

/-- C6 witness: a well-formed tagged response yields the block content
for both the code and the spec description, and a fenceless response is
passed through whole. -/
theorem claim_C6_witness :
    RiskAnalystAgent.fenceCandidate
        (("Sure: " : String).data ++ jsonTag ++ (" payload " : String).data ++
          fence ++ (" done" : String).data) = (" payload " : String).data
    ∧ specCandidate
        (("Sure: " : String).data ++ jsonTag ++ (" payload " : String).data ++
          fence ++ (" done" : String).data) = (" payload " : String).data
    ∧ RiskAnalystAgent.fenceCandidate ("no fences here" : String).data =
        ("no fences here" : String).data := by
  have h := claim_C6_amended.1 ("Sure: " : String).data (" payload " : String).data
    (" done" : String).data (by decide) (by decide) (by decide)
  have h3 := claim_C6_amended.2.2 ("no fences here" : String).data (by decide) (by decide)
  exact ⟨h.1, h.2.2, h3.1⟩

/-- C7: an empty response, a response whose selected content strips to
nothing, and a response whose selected content `json.loads` cannot parse
all make extraction fail with the wrapped `ValueError`, and the
invocation produces no typed output — for the risk analyst end to end,
and for the compliance extractor as a function (its pipeline never
reaches it). -/
theorem claim_C7 :
    (RiskAnalystAgent._extract_json_from_response ("") =
      .error ⟨"ValueError", "No JSON content found: No JSON content found"⟩)
    ∧ (∀ s : String, pyStripChars (RiskAnalystAgent.fenceCandidate s.data) = [] →
        RiskAnalystAgent._extract_json_from_response s =
          .error ⟨"ValueError", "No JSON content found: No JSON content found"⟩)
    ∧ (∀ (J : Type) (c : CaseData) (env : RiskAnalystAgent.RaEnv J)
          (text content : String) (ex : PyExn),
        env.chat RiskAnalystAgent.system_prompt
          (RiskAnalystAgent._format_case_for_prompt c) = .ok text →
        RiskAnalystAgent._extract_json_from_response text = .ok content →
        env.loads content = .error ex →
        (RiskAnalystAgent.analyze_case c env).1 =
          .error ⟨"ValueError", "No JSON content found"⟩
        ∧ (∀ e ∈ (RiskAnalystAgent.analyze_case c env).2, e.success = false))
    ∧ (∀ (J : Type) (c : CaseData) (env : RiskAnalystAgent.RaEnv J)
          (text : String) (ex : PyExn),
        env.chat RiskAnalystAgent.system_prompt
          (RiskAnalystAgent._format_case_for_prompt c) = .ok text →
        RiskAnalystAgent._extract_json_from_response text = .error ex →
        (RiskAnalystAgent.analyze_case c env).1 =
          .error ⟨"ValueError", "No JSON content found"⟩)
    ∧ (∀ (J : Type) (loads : String → Except PyExn J) (s : String),
        pyStripChars (ComplianceOfficerAgent.fenceCandidate s.data) = [] →
        ComplianceOfficerAgent._extract_json_from_response loads s =
          .error ⟨"ValueError", "Failed to parse Risk Analyst JSON output: No JSON content found"⟩)
    ∧ (∀ (J : Type) (loads : String → Except PyExn J) (s : String) (ex : PyExn),
        pyStripChars (ComplianceOfficerAgent.fenceCandidate s.data) ≠ [] →
        loads (String.mk (pyStripChars (ComplianceOfficerAgent.fenceCandidate s.data))) =
          .error ex →
        ComplianceOfficerAgent._extract_json_from_response loads s =
          .error ⟨"ValueError", "Failed to parse Risk Analyst JSON output: " ++ ex.msg⟩) := by
  refine ⟨rfl, ?_, ?_, ?_, ?_, ?_⟩
  · intro s h
    unfold RiskAnalystAgent._extract_json_from_response
    rw [if_pos h]
  · intro J c env text content ex hchat hex hloads
    rw [analyze_case_of_body_err (analyze_body_of_loads_err hchat hex hloads)]
    exact ⟨rfl, by simp⟩
  · intro J c env text ex hchat hex
    rw [analyze_case_of_body_err (analyze_body_of_extract_err hchat hex)]
  · intro J loads s h
    unfold ComplianceOfficerAgent._extract_json_from_response
    rw [if_pos h]
  · intro J loads s ex h hloads
    unfold ComplianceOfficerAgent._extract_json_from_response
    rw [if_neg h, hloads]

/-- C7 witness: a whitespace-only tagged fenced response fails
extraction, and a prose response that `json.loads` rejects yields no
typed output from `analyze_case`. -/
theorem claim_C7_witness :
    pyStripChars (RiskAnalystAgent.fenceCandidate blankFenced.data) = []
    ∧ RiskAnalystAgent._extract_json_from_response blankFenced =
        .error ⟨"ValueError", "No JSON content found: No JSON content found"⟩
    ∧ (RiskAnalystAgent.analyze_case sampleCase envBadParse).1 =
        .error ⟨"ValueError", "No JSON content found"⟩ := by
  have h2 := claim_C7.2.1 blankFenced (by decide)
  have h3 := claim_C7.2.2.1 Unit sampleCase envBadParse
    ("this is prose, not a payload") ("this is prose, not a payload")
    ⟨"JSONDecodeError", "Expecting value: line 1 column 1"⟩ rfl rfl rfl
  exact ⟨by decide, h2, h3.1⟩

/-- C8 counterexample: a transport failure and an unparseable-response
failure reach the caller as the same generic
`ValueError("No JSON content found")` — there is no distinct
`TransportError` (or other typed error) per failure kind. -/
theorem claim_C8_counterexample :
    (RiskAnalystAgent.analyze_case sampleCase envChatBoom).1 =
      .error ⟨"ValueError", "No JSON content found"⟩
    ∧ (RiskAnalystAgent.analyze_case sampleCase envBadParse).1 =
      .error ⟨"ValueError", "No JSON content found"⟩
    ∧ (⟨"ValueError", "No JSON content found"⟩ : PyExn).kind ≠ "TransportError" := by
  exact ⟨rfl, rfl, by decide⟩

/-- C8 amended: every exception from the model call is caught, logged as
a failure carrying `str(e)`, and re-raised to the caller as the generic
`ValueError("No JSON content found")` in `analyze_case`; the compliance
agent likewise surfaces every failure as a `ValueError` with its fixed
wrapper message — no failure kind reaches the caller as a distinct typed
error. -/
theorem claim_C8_amended {J₁ J₂ : Type} (c : CaseData) (ra : RiskAnalystOutput)
    (envA : RiskAnalystAgent.RaEnv J₁) (envC : ComplianceOfficerAgent.CoEnv J₂) :
    (∀ ex, envA.chat RiskAnalystAgent.system_prompt
        (RiskAnalystAgent._format_case_for_prompt c) = .error ex →
      RiskAnalystAgent.analyze_case c envA =
        (.error ⟨"ValueError", "No JSON content found"⟩,
          [{ agent_type := "RiskAnalystS", action := "analyze_case",
             case_id := c.case_id,
             input_data := RiskAnalystAgent._format_case_for_prompt c,
             output_data := none,
             reasoning := "Failed to classify case",
             execution_time_ms := 0, success := false,
             error_message := some ex.msg }]))
    ∧ (ComplianceOfficerAgent.generate_compliance_narrative c ra envC).1 =
        .error ⟨"ValueError", "Failed to generate compliance narrative: " ++ arityMsg⟩ := by
  constructor
  · intro ex h
    exact analyze_case_of_body_err (analyze_body_of_chat_err h)
  · rw [generate_compliance_narrative_eq]

/-- C8 witness: the concrete transport failure is logged and surfaced as
the generic `ValueError`. -/
theorem claim_C8_witness :
    RiskAnalystAgent.analyze_case sampleCase envChatBoom =
      (.error ⟨"ValueError", "No JSON content found"⟩,
        [{ agent_type := "RiskAnalystS", action := "analyze_case",
           case_id := sampleCase.case_id,
           input_data := RiskAnalystAgent._format_case_for_prompt sampleCase,
           output_data := none,
           reasoning := "Failed to classify case",
           execution_time_ms := 0, success := false,
           error_message := some ("connection reset by peer") }]) := by
  exact (@claim_C8_amended Unit Unit sampleCase sampleRA envChatBoom coEnvAny).1
    ⟨"APIConnectionError", "connection reset by peer"⟩ rfl

/-- C9 (code bug): `generate_compliance_narrative` raises for every
environment at the concrete failing input, so no
`ComplianceOfficerOutput` is ever returned; and narrative validation
never compares the `word_count` field with the recomputed count — a
compliant narrative with a wrong `word_count` passes it. -/
theorem claim_C9_code_bug :
    (∀ (J : Type) (env : ComplianceOfficerAgent.CoEnv J),
      (ComplianceOfficerAgent.generate_compliance_narrative sampleCase sampleRA env).1 =
        .error ⟨"ValueError", "Failed to generate compliance narrative: " ++ arityMsg⟩)
    ∧ ComplianceOfficerAgent._validate_narrative_compliance badOutput.narrative =
        ComplianceCheck.ok
    ∧ badOutput.word_count ≠ pyWordCount badOutput.narrative := by
  refine ⟨?_, by decide, by decide⟩
  intro J env
  rw [generate_compliance_narrative_eq]

/-- Reason strings of the two validation failures never coincide: one
starts with an `N`, the other with an `M`. -/
theorem wordLimitReason_ne_terms (wc : Nat) (ms : String) :
    wordLimitReason wc ≠ "Missing required terms: " ++ ms := by
  intro h
  have h1 : (wordLimitReason wc).data.head? = some ('N') := rfl
  rw [h] at h1
  have h2 : (("Missing required terms: " ++ ms)).data.head? = some ('M') := rfl
  have h3 := h1.symm.trans h2
  simp at h3

/-- C10: when a narrative both exceeds the 120-word limit and misses
required terms, validation reports only the word-count violation — the
terminology rule is never reported. -/
theorem claim_C10 (narrative : String) (h1 : 120 < pyWordCount narrative)
    (_h2 : missingTerms narrative ≠ []) :
    ComplianceOfficerAgent._validate_narrative_compliance narrative =
      ComplianceCheck.fail (wordLimitReason (pyWordCount narrative))
    ∧ ∀ ms, ComplianceOfficerAgent._validate_narrative_compliance narrative ≠
        ComplianceCheck.fail ("Missing required terms: " ++ ms) := by
  have hv : ComplianceOfficerAgent._validate_narrative_compliance narrative =
      ComplianceCheck.fail (wordLimitReason (pyWordCount narrative)) := by
    unfold ComplianceOfficerAgent._validate_narrative_compliance
    rw [if_pos h1]
    rfl
  refine ⟨hv, ?_⟩
  intro ms hcontra
  rw [hv] at hcontra
  exact wordLimitReason_ne_terms _ _ (ComplianceCheck.fail.inj hcontra)

set_option maxRecDepth 8000 in
/-- C10 witness: a 121-word narrative missing every required term fails
with the word-limit reason and not with the missing-terms reason. -/
theorem claim_C10_witness :
    pyWordCount narrative121bad = 121
    ∧ missingTerms narrative121bad = required_terms
    ∧ ComplianceOfficerAgent._validate_narrative_compliance narrative121bad =
        ComplianceCheck.fail (wordLimitReason 121)
    ∧ ComplianceOfficerAgent._validate_narrative_compliance narrative121bad ≠
        ComplianceCheck.fail
          ("Missing required terms: " ++ pyJoin (", ") required_terms) := by
  have h := claim_C10 narrative121bad (by decide) (by decide)
  exact ⟨by decide, by decide, h.1, h.2 _⟩
